import Mathlib

/-!
Verification of the `import-project.py` launcher script.

The script locates a platform-specific Godot editor binary, validates a
project directory, spawns the editor in headless import mode and propagates
the child's exit code.  We embed it shallowly: the runtime environment
(OS name, machine string, environment variable, argv, filesystem predicates,
path resolution and the child process) is a record of abstract inputs, and
the script body is a pure function of that record.
-/

/-- The runtime environment the script reads from.
`system`/`machine` are `platform.system()` / `platform.machine()`;
`godotEditor` is `os.environ.get("GODOT_EDITOR")` (`none` when unset);
`argv` is `sys.argv` (head is the program name);
`sep` is the host path separator used by `os.path.join`;
`pathExists` is `os.path.exists`, `isFile` is `os.path.isfile`,
`abspath` is `os.path.abspath`;
`run` gives the return code `subprocess.run(cmd).returncode` of the child
spawned with argument list `cmd` (an `Int`: Python encodes
signal-termination as a negative value, which we carry verbatim). -/
structure Env where
  system : String
  machine : String
  godotEditor : Option String
  argv : List String
  sep : String
  pathExists : String → Bool
  isFile : String → Bool
  abspath : String → String
  run : List String → Int

/-- `os.path.join a b` for the non-empty relative components the script
joins: the separator between the two parts. -/
def osPathJoin (sep a b : String) : String := a ++ sep ++ b

/-- A fatal pre-spawn exit: the lines printed to `stderr` and the code
passed to `sys.exit`. -/
structure Failure where
  stderrLines : List String
  exitCode : Int
deriving DecidableEq, Repr

/-- Python `str.lower()`, character by character.  `Char.toLower` lowers
exactly the ASCII letters, which covers every `platform.machine()` value the
script distinguishes. -/
def pyLower (s : String) : String := String.mk (s.data.map Char.toLower)

/-- Lines 13-17 of the script: `machine = platform.machine().lower()`,
then `arch = "arm64" if machine in ("arm64", "aarch64") else "x86_64"`. -/
def archToken (machine : String) : String :=
  let m := pyLower machine
  if m = "arm64" ∨ m = "aarch64" then "arm64" else "x86_64"

/-- Lines 19-27 of the script: the OS branch of `detect_editor_binary`,
producing the binary filename, or the unsupported-platform fatal exit. -/
def editorName (system arch : String) : Except Failure String :=
  if system = "Windows" then
    Except.ok ("godot.windows.editor." ++ arch ++ ".executable.mono.exe")
  else if system = "Linux" then
    Except.ok ("godot.linuxbsd.editor." ++ arch ++ ".executable.mono")
  else if system = "Darwin" then
    Except.ok ("godot.macos.editor." ++ arch ++ ".executable.mono")
  else
    Except.error ⟨["Unsupported platform: " ++ system], 1⟩

/-- `detect_editor_binary` (lines 10-35): build the filename from the host
descriptor, join it under `godot/bin`, and require the path to exist. -/
def detect_editor_binary (env : Env) : Except Failure String :=
  match editorName env.system (archToken env.machine) with
  | Except.error f => Except.error f
  | Except.ok name =>
    let path := osPathJoin env.sep (osPathJoin env.sep "godot" "bin") name
    if env.pathExists path then
      Except.ok path
    else
      Except.error ⟨["Editor binary not found: " ++ path,
                     "Build the editor first: uv run poe build-godot"], 1⟩

/-- Line 40 of the script:
`os.environ.get("GODOT_EDITOR") or detect_editor_binary()`.
Python `or` takes the left operand only when it is truthy,
i.e. a set, non-empty string. -/
def resolveEditor (env : Env) : Except Failure String :=
  match env.godotEditor with
  | some s => if s = "" then detect_editor_binary env else Except.ok s
  | none => detect_editor_binary env

/-- Line 39 of the script: `sys.argv[1] if len(sys.argv) > 1 else "./game"`. -/
def projectArg (argv : List String) : String :=
  match argv with
  | _ :: p :: _ => p
  | _ => "./game"

/-- The outcome of one invocation of the script: either a fatal pre-spawn
exit (stderr lines and exit code), or the child was spawned with argument
list `cmd` and the script exited with the child's return code. -/
inductive MainResult where
  | fatal (stderrLines : List String) (exitCode : Int)
  | ran (cmd : List String) (exitCode : Int)
deriving DecidableEq, Repr

/-- `main` (lines 38-48): read the project argument, resolve the editor
binary, resolve the project to an absolute path, require
`project.godot` inside it, then spawn the editor and exit with the
child's return code. -/
def mainRun (env : Env) : MainResult :=
  match resolveEditor env with
  | Except.error f => MainResult.fatal f.stderrLines f.exitCode
  | Except.ok editor =>
    if env.isFile (osPathJoin env.sep (env.abspath (projectArg env.argv)) "project.godot") then
      MainResult.ran
        [editor, "--headless", "--import", "--path", env.abspath (projectArg env.argv)]
        (env.run [editor, "--headless", "--import", "--path", env.abspath (projectArg env.argv)])
    else
      MainResult.fatal ["No project.godot found in: " ++ env.abspath (projectArg env.argv)] 1

/-! ### Concrete environments used as witnesses and counterexamples -/

/-- A Linux host with a stub override editor that exits with code 7. -/
def envStub7 : Env :=
  { system := "Linux", machine := "x86_64", godotEditor := some "/stub-editor",
    argv := ["import-project.py", "/proj"], sep := "/",
    pathExists := fun _ => true, isFile := fun _ => true,
    abspath := fun s => s, run := fun _ => 7 }

/-- A Windows x86_64 host, no override, everything on disk. -/
def envWin : Env :=
  { system := "Windows", machine := "x86_64", godotEditor := none,
    argv := ["import-project.py"], sep := "\\",
    pathExists := fun _ => true, isFile := fun _ => true,
    abspath := fun s => s, run := fun _ => 0 }

/-- A Linux arm64 host, no override, everything on disk. -/
def envLinArm : Env :=
  { system := "Linux", machine := "arm64", godotEditor := none,
    argv := ["import-project.py"], sep := "/",
    pathExists := fun _ => true, isFile := fun _ => true,
    abspath := fun s => s, run := fun _ => 0 }

/-- A macOS aarch64 host, no override, everything on disk. -/
def envMacAarch : Env :=
  { system := "Darwin", machine := "aarch64", godotEditor := none,
    argv := ["import-project.py"], sep := "/",
    pathExists := fun _ => true, isFile := fun _ => true,
    abspath := fun s => s, run := fun _ => 0 }

/-- An unsupported host with `GODOT_EDITOR` set to the empty string. -/
def envEmptyOverride : Env :=
  { system := "Plan9", machine := "x86_64", godotEditor := some "",
    argv := ["import-project.py"], sep := "/",
    pathExists := fun _ => true, isFile := fun _ => true,
    abspath := fun s => s, run := fun _ => 0 }

/-- An unsupported host with a non-empty override and nothing on disk. -/
def envOverride : Env :=
  { system := "Plan9", machine := "weird", godotEditor := some "/custom/editor",
    argv := ["import-project.py"], sep := "/",
    pathExists := fun _ => false, isFile := fun _ => true,
    abspath := fun s => s, run := fun _ => 3 }

/-- A Linux host whose override path exists nowhere on disk. -/
def envMissingOverride : Env :=
  { system := "Linux", machine := "x86_64", godotEditor := some "/missing/editor",
    argv := ["import-project.py", "/proj"], sep := "/",
    pathExists := fun _ => false, isFile := fun _ => true,
    abspath := fun s => s, run := fun _ => 0 }

/-- A Linux host, no override, with no editor binary on disk. -/
def envNoBinary : Env :=
  { system := "Linux", machine := "x86_64", godotEditor := none,
    argv := ["import-project.py"], sep := "/",
    pathExists := fun _ => false, isFile := fun _ => true,
    abspath := fun s => s, run := fun _ => 0 }

/-- An unsupported host, no override, and a project with no marker file. -/
def envNoProjectPlan9 : Env :=
  { system := "Plan9", machine := "x86_64", godotEditor := none,
    argv := ["import-project.py", "/proj"], sep := "/",
    pathExists := fun _ => true, isFile := fun _ => false,
    abspath := fun s => s, run := fun _ => 0 }

/-- An overridden editor against a project with no marker file. -/
def envNoProject : Env :=
  { system := "Linux", machine := "x86_64", godotEditor := some "/editor",
    argv := ["import-project.py", "/proj"], sep := "/",
    pathExists := fun _ => true, isFile := fun _ => false,
    abspath := fun s => s, run := fun _ => 0 }

/-- An unsupported host with a non-empty override and a valid project. -/
def envPlan9Override : Env :=
  { system := "Plan9", machine := "x86_64", godotEditor := some "/stub",
    argv := ["import-project.py", "/proj"], sep := "/",
    pathExists := fun _ => true, isFile := fun _ => true,
    abspath := fun s => s, run := fun _ => 0 }

/-- An unsupported host, no override. -/
def envPlan9 : Env :=
  { system := "Plan9", machine := "x86_64", godotEditor := none,
    argv := ["import-project.py"], sep := "/",
    pathExists := fun _ => true, isFile := fun _ => true,
    abspath := fun s => s, run := fun _ => 0 }

/-- A Linux host, no override, no positional argument, everything valid. -/
def envDefault : Env :=
  { system := "Linux", machine := "x86_64", godotEditor := none,
    argv := ["import-project.py"], sep := "/",
    pathExists := fun _ => true, isFile := fun _ => true,
    abspath := fun s => "/cwd/" ++ s, run := fun _ => 0 }

/-! ### Claims -/

/-- Claim C1: when binary location and project validation pass, the script
spawns the editor, waits, and exits with the child's return code verbatim
and uninterpreted (the code is an `Int`, so any signal-termination encoding
the platform produces is carried unchanged).  A stub child returning 7
makes the launcher exit 7 (see the witness). -/
theorem exit_code_passthrough (env : Env) (editor : String)
    (hres : resolveEditor env = Except.ok editor)
    (hproj : env.isFile
      (osPathJoin env.sep (env.abspath (projectArg env.argv)) "project.godot") = true) :
    mainRun env =
      MainResult.ran
        [editor, "--headless", "--import", "--path", env.abspath (projectArg env.argv)]
        (env.run [editor, "--headless", "--import", "--path",
          env.abspath (projectArg env.argv)]) := by
  simp [mainRun, hres, hproj]

/-- Witness for C1: a stub editor exiting 7 against a valid project makes
the launcher exit 7. -/
theorem exit_code_passthrough_w :
    mainRun envStub7 =
      MainResult.ran ["/stub-editor", "--headless", "--import", "--path", "/proj"] 7 :=
  exit_code_passthrough envStub7 "/stub-editor" rfl rfl

lemma archToken_x86_64 : archToken "x86_64" = "x86_64" := by decide

lemma archToken_arm64 : archToken "arm64" = "arm64" := by decide

lemma archToken_aarch64 : archToken "aarch64" = "arm64" := by decide

/-- Claim C2: for every supported (OS, architecture) pair — any machine
string on each of the three supported operating systems — the resolver
yields exactly `godot` / `bin` joined with the filename pattern
`godot.<os-token>.editor.<arch-token>.executable.mono[.exe]`; the spec's
three named instances (Windows, x86_64), (Linux, arm64), (Darwin, aarch64)
are exercised by the witness. -/
theorem resolver_filenames (env : Env) :
    (env.system = "Windows" →
      env.pathExists (osPathJoin env.sep (osPathJoin env.sep "godot" "bin")
        ("godot.windows.editor." ++ archToken env.machine
          ++ ".executable.mono.exe")) = true →
      detect_editor_binary env =
        Except.ok (osPathJoin env.sep (osPathJoin env.sep "godot" "bin")
          ("godot.windows.editor." ++ archToken env.machine
            ++ ".executable.mono.exe"))) ∧
    (env.system = "Linux" →
      env.pathExists (osPathJoin env.sep (osPathJoin env.sep "godot" "bin")
        ("godot.linuxbsd.editor." ++ archToken env.machine
          ++ ".executable.mono")) = true →
      detect_editor_binary env =
        Except.ok (osPathJoin env.sep (osPathJoin env.sep "godot" "bin")
          ("godot.linuxbsd.editor." ++ archToken env.machine
            ++ ".executable.mono"))) ∧
    (env.system = "Darwin" →
      env.pathExists (osPathJoin env.sep (osPathJoin env.sep "godot" "bin")
        ("godot.macos.editor." ++ archToken env.machine
          ++ ".executable.mono")) = true →
      detect_editor_binary env =
        Except.ok (osPathJoin env.sep (osPathJoin env.sep "godot" "bin")
          ("godot.macos.editor." ++ archToken env.machine
            ++ ".executable.mono"))) := by
  refine ⟨?_, ?_, ?_⟩ <;> intro hs hex <;>
    simp [detect_editor_binary, editorName, hs, hex]

/-- Witness for C2 on three concrete hosts, one per supported pair. -/
theorem resolver_filenames_w :
    detect_editor_binary envWin =
      Except.ok (osPathJoin "\\" (osPathJoin "\\" "godot" "bin")
        "godot.windows.editor.x86_64.executable.mono.exe") ∧
    detect_editor_binary envLinArm =
      Except.ok (osPathJoin "/" (osPathJoin "/" "godot" "bin")
        "godot.linuxbsd.editor.arm64.executable.mono") ∧
    detect_editor_binary envMacAarch =
      Except.ok (osPathJoin "/" (osPathJoin "/" "godot" "bin")
        "godot.macos.editor.arm64.executable.mono") :=
  ⟨(resolver_filenames envWin).1 rfl rfl,
   (resolver_filenames envLinArm).2.1 rfl rfl,
   (resolver_filenames envMacAarch).2.2 rfl rfl⟩

/-- Claim C7: the resolver maps machine strings whose lowercase form is
`arm64` or `aarch64` to the token `arm64`, and every other machine string —
without error — to the fallback token `x86_64`. -/
theorem arch_token_mapping (machine : String) :
    ((pyLower machine = "arm64" ∨ pyLower machine = "aarch64") →
      archToken machine = "arm64") ∧
    (pyLower machine ≠ "arm64" → pyLower machine ≠ "aarch64" →
      archToken machine = "x86_64") := by
  constructor
  · intro h
    simp only [archToken]
    rw [if_pos h]
  · intro h1 h2
    simp only [archToken]
    rw [if_neg (by simp [h1, h2])]

/-- Witness for C7: a mixed-case `AArch64` maps to `arm64`, and `riscv64`
falls back to `x86_64`. -/
theorem arch_token_mapping_w :
    archToken "AArch64" = "arm64" ∧ archToken "riscv64" = "x86_64" :=
  ⟨(arch_token_mapping "AArch64").1 (Or.inr (by decide)),
   (arch_token_mapping "riscv64").2 (by decide) (by decide)⟩

/-- Claim C9: `GODOT_EDITOR` set to the empty string is not an override:
the whole run is identical to one where the variable is unset, so platform
detection and the binary existence check happen exactly as without it. -/
theorem empty_override_ignored (env : Env) :
    mainRun { env with godotEditor := some "" } =
      mainRun { env with godotEditor := none } := rfl

/-- Claim C10: only the first positional argument is consulted; any extra
command-line arguments leave the entire run result — resolved binary,
validated project path and spawned command line — unchanged. -/
theorem extra_args_ignored (env : Env) (prog p : String) (rest : List String) :
    mainRun { env with argv := prog :: p :: rest } =
      mainRun { env with argv := [prog, p] } := rfl

/-- Claim C8: the project path defaults to `./game` when no positional
argument is given, is resolved to an absolute path before use, and the
child is always spawned with exactly the argument list
`[editor, --headless, --import, --path, <absolute project>]`. -/
theorem spawn_arguments (env : Env) (editor : String)
    (hres : resolveEditor env = Except.ok editor)
    (hproj : env.isFile
      (osPathJoin env.sep (env.abspath (projectArg env.argv)) "project.godot") = true) :
    mainRun env =
      MainResult.ran
        [editor, "--headless", "--import", "--path", env.abspath (projectArg env.argv)]
        (env.run [editor, "--headless", "--import", "--path",
          env.abspath (projectArg env.argv)]) ∧
    (env.argv.length ≤ 1 → projectArg env.argv = "./game") := by
  constructor
  · simp [mainRun, hres, hproj]
  · intro hlen
    cases h : env.argv with
    | nil => rfl
    | cons a t =>
      cases t with
      | nil => rfl
      | cons b t2 =>
        rw [h] at hlen
        simp at hlen

/-- Witness for C8: with no positional argument the Linux host spawns the
detected binary on the absolutized default project `./game`. -/
theorem spawn_arguments_w :
    mainRun envDefault =
      MainResult.ran
        ["godot/bin/godot.linuxbsd.editor.x86_64.executable.mono",
         "--headless", "--import", "--path", "/cwd/./game"] 0 ∧
    projectArg envDefault.argv = "./game" :=
  ⟨(spawn_arguments envDefault
      "godot/bin/godot.linuxbsd.editor.x86_64.executable.mono" rfl rfl).1,
   (spawn_arguments envDefault
      "godot/bin/godot.linuxbsd.editor.x86_64.executable.mono" rfl rfl).2 (by decide)⟩

/-- Claim C3 counterexample: `GODOT_EDITOR` is set — to the empty string —
yet platform detection is not skipped and the set value is not used: the
run dies on the unsupported host platform instead. -/
theorem override_verbatim_cex :
    envEmptyOverride.godotEditor = some "" ∧
    mainRun envEmptyOverride = MainResult.fatal ["Unsupported platform: Plan9"] 1 :=
  ⟨rfl, rfl⟩

/-- Claim C3 (amended): whenever `GODOT_EDITOR` is set to a non-empty
string, detection is skipped entirely — the run does not depend on the host
descriptor or on which paths exist — and the value is used verbatim as the
editor path with no existence validation. -/
theorem override_verbatim (env : Env) (s : String)
    (hset : env.godotEditor = some s) (hne : s ≠ "") :
    resolveEditor env = Except.ok s ∧
    ∀ sys mach pe,
      mainRun { env with system := sys, machine := mach, pathExists := pe } =
        mainRun env := by
  refine ⟨by simp [resolveEditor, hset, hne], ?_⟩
  intro sys mach pe
  simp [mainRun, resolveEditor, hset, hne]

/-- Witness for C3: a never-existing override path on an unsupported host
is still accepted verbatim and the child is spawned with it. -/
theorem override_verbatim_w :
    resolveEditor envOverride = Except.ok "/custom/editor" ∧
    mainRun { envOverride with
                system := "Plan9", machine := "weird",
                pathExists := fun _ => false } =
      mainRun envOverride :=
  ⟨(override_verbatim envOverride "/custom/editor" rfl (by decide)).1,
   (override_verbatim envOverride "/custom/editor" rfl (by decide)).2
      "Plan9" "weird" (fun _ => false)⟩

/-- Claim C4 counterexample: an overridden editor path that exists nowhere
on disk (`pathExists` is constantly `false`) is neither reported nor does
it make the launcher exit 1 — the child is spawned with it anyway. -/
theorem missing_binary_fatal_cex :
    envMissingOverride.pathExists "/missing/editor" = false ∧
    mainRun envMissingOverride =
      MainResult.ran ["/missing/editor", "--headless", "--import", "--path", "/proj"] 0 :=
  ⟨rfl, rfl⟩

/-- Claim C4 (amended): when no non-empty override is set and the detected
editor-binary path does not exist on disk, the launcher reports the missing
path and a build hint on stderr and exits with code 1 without spawning. -/
theorem missing_binary_fatal (env : Env) (name : String)
    (hov : env.godotEditor = none ∨ env.godotEditor = some "")
    (hname : editorName env.system (archToken env.machine) = Except.ok name)
    (hex : env.pathExists
      (osPathJoin env.sep (osPathJoin env.sep "godot" "bin") name) = false) :
    mainRun env =
      MainResult.fatal
        ["Editor binary not found: " ++
           osPathJoin env.sep (osPathJoin env.sep "godot" "bin") name,
         "Build the editor first: uv run poe build-godot"] 1 := by
  have hdet : detect_editor_binary env =
      Except.error
        ⟨["Editor binary not found: " ++
            osPathJoin env.sep (osPathJoin env.sep "godot" "bin") name,
          "Build the editor first: uv run poe build-godot"], 1⟩ := by
    simp [detect_editor_binary, hname, hex]
  rcases hov with h | h <;> simp [mainRun, resolveEditor, h, hdet]

/-- Witness for C4: a Linux host with nothing on disk dies with the
missing-binary report and exit code 1. -/
theorem missing_binary_fatal_w :
    mainRun envNoBinary =
      MainResult.fatal
        ["Editor binary not found: godot/bin/godot.linuxbsd.editor.x86_64.executable.mono",
         "Build the editor first: uv run poe build-godot"] 1 :=
  missing_binary_fatal envNoBinary "godot.linuxbsd.editor.x86_64.executable.mono"
    (Or.inl rfl) rfl rfl

/-- Claim C5 counterexample: the project `/proj` lacks `project.godot`
(`isFile` is constantly `false`), yet the resolved project path is never
reported to the error stream — the run dies earlier on the unsupported
host, with an unrelated message. -/
theorem missing_project_fatal_cex :
    envNoProjectPlan9.isFile (osPathJoin "/" "/proj" "project.godot") = false ∧
    mainRun envNoProjectPlan9 = MainResult.fatal ["Unsupported platform: Plan9"] 1 :=
  ⟨rfl, rfl⟩

/-- Claim C5 (amended): when the editor binary has been resolved
successfully and the absolutized project directory does not directly
contain `project.godot`, the launcher reports the resolved path on stderr
and exits with code 1 without spawning the editor. -/
theorem missing_project_fatal (env : Env) (editor : String)
    (hres : resolveEditor env = Except.ok editor)
    (hproj : env.isFile
      (osPathJoin env.sep (env.abspath (projectArg env.argv)) "project.godot") = false) :
    mainRun env =
      MainResult.fatal
        ["No project.godot found in: " ++ env.abspath (projectArg env.argv)] 1 := by
  simp [mainRun, hres, hproj]

/-- Witness for C5: an overridden editor against a markerless project dies
with the resolved path in the report and exit code 1. -/
theorem missing_project_fatal_w :
    mainRun envNoProject = MainResult.fatal ["No project.godot found in: /proj"] 1 :=
  missing_project_fatal envNoProject "/editor" rfl rfl

/-- Claim C6 counterexample: on host OS `Plan9` — none of Windows, Linux,
Darwin — with a non-empty `GODOT_EDITOR`, the launcher neither exits 1 nor
writes an unsupported-platform message: it spawns the editor and exits 0. -/
theorem unsupported_platform_cex :
    envPlan9Override.system = "Plan9" ∧
    mainRun envPlan9Override =
      MainResult.ran ["/stub", "--headless", "--import", "--path", "/proj"] 0 :=
  ⟨rfl, rfl⟩

/-- Claim C6 (amended): when `GODOT_EDITOR` is unset or empty, any host OS
other than Windows, Linux and Darwin makes the launcher exit 1 with an
"Unsupported platform" stderr line; the outcome never consults the
filesystem predicates and nothing is spawned. -/
theorem unsupported_platform_fatal (env : Env)
    (hov : env.godotEditor = none ∨ env.godotEditor = some "")
    (h1 : env.system ≠ "Windows") (h2 : env.system ≠ "Linux")
    (h3 : env.system ≠ "Darwin") :
    mainRun env = MainResult.fatal ["Unsupported platform: " ++ env.system] 1 ∧
    ∀ pe isf, mainRun { env with pathExists := pe, isFile := isf } = mainRun env := by
  have hname : editorName env.system (archToken env.machine) =
      Except.error ⟨["Unsupported platform: " ++ env.system], 1⟩ := by
    simp [editorName, h1, h2, h3]
  have hdet : ∀ e : Env, e.system = env.system → e.machine = env.machine →
      detect_editor_binary e =
        Except.error ⟨["Unsupported platform: " ++ env.system], 1⟩ := by
    intro e hs hm
    simp [detect_editor_binary, hs, hm, hname]
  have hmain : ∀ e : Env, e.system = env.system → e.machine = env.machine →
      e.godotEditor = env.godotEditor →
      mainRun e = MainResult.fatal ["Unsupported platform: " ++ env.system] 1 := by
    intro e hs hm hg
    rcases hov with h | h <;>
      simp [mainRun, resolveEditor, hg, h, hdet e hs hm]
  refine ⟨hmain env rfl rfl rfl, ?_⟩
  intro pe isf
  rw [hmain { env with pathExists := pe, isFile := isf } rfl rfl rfl,
    hmain env rfl rfl rfl]

/-- Witness for C6: a Plan9 host without an override exits 1 with the
unsupported-platform report, whatever the filesystem looks like. -/
theorem unsupported_platform_fatal_w :
    mainRun envPlan9 = MainResult.fatal ["Unsupported platform: Plan9"] 1 ∧
    mainRun { envPlan9 with
                pathExists := fun _ => false, isFile := fun _ => false } =
      mainRun envPlan9 :=
  ⟨(unsupported_platform_fatal envPlan9 (Or.inl rfl)
      (by decide) (by decide) (by decide)).1,
   (unsupported_platform_fatal envPlan9 (Or.inl rfl)
      (by decide) (by decide) (by decide)).2 (fun _ => false) (fun _ => false)⟩
